import Mathlib

/-!
Verification of the genjutsu 3D-generation service: the binary point-cloud
(PLY) serializer, the job-submission API, and the worker's job lifecycle,
embedded shallowly from the Python sources under `src/python/`.

Machine floats appear only as opaque 32-bit patterns: the serializer copies
IEEE-754 single-precision values byte for byte (`struct.pack('f', v)` writes
the 4-byte little-endian bit pattern), so a float field is modelled by its
bit pattern, a natural number below 2^32. No float arithmetic occurs in any
verified code path.
-/

namespace Genjutsu

/-! ### Byte-level primitives

`struct.pack` with format `'f'` emits the 4 bytes of the IEEE-754 bit
pattern, least significant byte first (`binary_little_endian`). -/

/-- The 4 little-endian bytes of a 32-bit pattern, as `struct.pack('f', ·)`
lays them out on the wire. -/
def f32Bytes (n : Nat) : List Nat :=
  [n % 256, n / 256 % 256, n / 65536 % 256, n / 16777216 % 256]

/-- Read one little-endian 32-bit pattern off the front of a byte list. -/
def readF32 : List Nat → Nat × List Nat
  | b0 :: b1 :: b2 :: b3 :: rest => (b0 + 256 * b1 + 65536 * b2 + 16777216 * b3, rest)
  | l => (0, l)

/-- Read one byte (`uchar`) off the front of a byte list. -/
def readU8 : List Nat → Nat × List Nat
  | b :: rest => (b, rest)
  | [] => (0, [])

/-- The bytes of an ASCII string, as Python's `str.encode('ascii')` yields them. -/
def asciiBytes (s : String) : List Nat := s.toList.map Char.toNat

/-- Big-endian decimal digits of `n` (value, not ASCII), with explicit fuel so
the definition reduces by kernel computation; `fuel > n` is always enough. -/
def decDigitsCore : Nat → Nat → List Nat
  | 0, _ => []
  | fuel + 1, n => if n < 10 then [n] else decDigitsCore fuel (n / 10) ++ [n % 10]

/-- The ASCII bytes of `n` printed in decimal, as Python's f-string `{n}` emits. -/
def decimalBytes (n : Nat) : List Nat :=
  (decDigitsCore (n + 1) n).map (fun d => d + 48)

/-- Greedily consume ASCII decimal digits, folding them onto the accumulator;
stops at the first non-digit byte. -/
def parseDigits : List Nat → Nat → Nat × List Nat
  | [], acc => (acc, [])
  | b :: rest, acc =>
    if 48 ≤ b ∧ b ≤ 57 then parseDigits rest (acc * 10 + (b - 48)) else (acc, b :: rest)

/-- Drop `expected` off the front of `bs` when it is exactly the leading
segment; `none` on any mismatch. -/
def dropExact : List Nat → List Nat → Option (List Nat)
  | [], bs => some bs
  | _ :: _, [] => none
  | e :: es, b :: bs => if b = e then dropExact es bs else none

/-! ### The point-cloud data model

One Gaussian-splat record: position, normal, color, opacity, scale, rotation
quaternion (spec §3). Per-point attributes are index-aligned; the cloud is
the list of per-point records in index order. Float fields hold IEEE-754
single-precision bit patterns; color components are `uint8` values. -/

structure SplatPoint where
  px : Nat
  py : Nat
  pz : Nat
  nx : Nat
  ny : Nat
  nz : Nat
  r : Nat
  g : Nat
  b : Nat
  opacity : Nat
  s0 : Nat
  s1 : Nat
  s2 : Nat
  rot0 : Nat
  rot1 : Nat
  rot2 : Nat
  rot3 : Nat
deriving DecidableEq

structure PointCloud where
  points : List SplatPoint
deriving DecidableEq

/-- `count`: the number of points (spec §3). -/
def PointCloud.count (c : PointCloud) : Nat := c.points.length

/-- A well-formed point: every float bit pattern fits in 32 bits and every
color component is a `uint8` (`struct.pack('B', ·)` rejects values ≥ 256). -/
def ValidPoint (p : SplatPoint) : Prop :=
  p.px < 4294967296 ∧ p.py < 4294967296 ∧ p.pz < 4294967296 ∧
  p.nx < 4294967296 ∧ p.ny < 4294967296 ∧ p.nz < 4294967296 ∧
  p.r < 256 ∧ p.g < 256 ∧ p.b < 256 ∧
  p.opacity < 4294967296 ∧
  p.s0 < 4294967296 ∧ p.s1 < 4294967296 ∧ p.s2 < 4294967296 ∧
  p.rot0 < 4294967296 ∧ p.rot1 < 4294967296 ∧ p.rot2 < 4294967296 ∧
  p.rot3 < 4294967296

instance (p : SplatPoint) : Decidable (ValidPoint p) := by
  unfold ValidPoint; infer_instance

/-- A valid PointCloud: every per-point record is well formed. -/
def ValidCloud (c : PointCloud) : Prop := ∀ p ∈ c.points, ValidPoint p

instance (c : PointCloud) : Decidable (ValidCloud c) := by
  unfold ValidCloud; infer_instance

/-! ### The PLY writer

Translated from `ShapEModel._export_to_ply` (src/python/models/shap_e.py,
lines 188–243); `GaussianDreamerModel._export_gaussians`
(src/python/models/gaussiandreamer.py, lines 94–125) emits the identical
header and identical 59-byte records. -/

/-- The header text before the interpolated vertex count
(`f"element vertex {num_points}"`). -/
def headerPre : String :=
  "ply\nformat binary_little_endian 1.0\nelement vertex "

/-- The header lines after the vertex-count line, through `end_header`. -/
def headerSuf : String :=
  "property float x\nproperty float y\nproperty float z\nproperty float nx\nproperty float ny\nproperty float nz\nproperty uchar red\nproperty uchar green\nproperty uchar blue\nproperty float opacity\nproperty float scale_0\nproperty float scale_1\nproperty float scale_2\nproperty float rot_0\nproperty float rot_1\nproperty float rot_2\nproperty float rot_3\nend_header\n"

/-- The ASCII header bytes for a cloud of `count` points: the fixed lines up
to the interpolated count, the count in decimal, the newline closing the
`element vertex` line (byte 10), then the property lines. -/
def headerBytes (count : Nat) : List Nat :=
  asciiBytes headerPre ++ decimalBytes count ++ (10 :: asciiBytes headerSuf)

/-- One 59-byte point record, in the declared field order. The writer emits
`struct.pack('fff', 0.0, 0.0, 0.0)` for the normal — a placeholder,
regardless of the normal stored in the input point (shap_e.py line 221,
gaussiandreamer.py line 121). -/
def recordBytes (p : SplatPoint) : List Nat :=
  f32Bytes p.px ++ f32Bytes p.py ++ f32Bytes p.pz ++
  f32Bytes 0 ++ f32Bytes 0 ++ f32Bytes 0 ++
  [p.r, p.g, p.b] ++
  f32Bytes p.opacity ++
  f32Bytes p.s0 ++ f32Bytes p.s1 ++ f32Bytes p.s2 ++
  f32Bytes p.rot0 ++ f32Bytes p.rot1 ++ f32Bytes p.rot2 ++ f32Bytes p.rot3

/-- The full artifact: header then exactly `count` point records. -/
def serializeCloud (c : PointCloud) : List Nat :=
  headerBytes c.count ++ (c.points.map recordBytes).flatten

/-- `ShapEModel._export_to_ply`: raises `ValueError("Mesh has no vertices!")`
when the cloud is empty (line 131–132), otherwise writes the artifact and
re-checks the file size against `len(header) + num_points * 59`, raising on
mismatch (lines 238–243). -/
def shapE_export (c : PointCloud) : Except String (List Nat) :=
  if c.count = 0 then .error "Mesh has no vertices!"
  else
    let bytes := serializeCloud c
    if bytes.length = (headerBytes c.count).length + c.count * 59 then .ok bytes
    else .error "PLY file size mismatch!"

/-- `GaussianDreamerModel._export_gaussians`: writes the same header and the
same 59-byte records with no emptiness guard and no size re-check. -/
def gaussianDreamer_export (c : PointCloud) : List Nat := serializeCloud c

/-! ### The PLY reader (spec-modelled) -/

/-- A point as it appears after deserialization of a written record: the
normal components come back as the 0.0 placeholder the writer emitted. -/
def writtenPoint (p : SplatPoint) : SplatPoint :=
  { p with nx := 0, ny := 0, nz := 0 }

/-- The deserialized form of a whole cloud: every normal zeroed. -/
def zeroNormals (c : PointCloud) : PointCloud :=
  ⟨c.points.map writtenPoint⟩

/-- The point a written record decodes to, before any validity assumption:
each 32-bit field truncated to its low 32 bits, normals replaced by the 0.0
placeholder, color bytes copied directly. On a valid point this is exactly
`writtenPoint`. -/
def truncPoint (p : SplatPoint) : SplatPoint where
  px := p.px % 4294967296
  py := p.py % 4294967296
  pz := p.pz % 4294967296
  nx := 0
  ny := 0
  nz := 0
  r := p.r
  g := p.g
  b := p.b
  opacity := p.opacity % 4294967296
  s0 := p.s0 % 4294967296
  s1 := p.s1 % 4294967296
  s2 := p.s2 % 4294967296
  rot0 := p.rot0 % 4294967296
  rot1 := p.rot1 % 4294967296
  rot2 := p.rot2 % 4294967296
  rot3 := p.rot3 % 4294967296

/-- Parse one 59-byte point record. -/
def readPoint (bs : List Nat) : SplatPoint × List Nat :=
  let p0 := readF32 bs
  let p1 := readF32 p0.2
  let p2 := readF32 p1.2
  let n0 := readF32 p2.2
  let n1 := readF32 n0.2
  let n2 := readF32 n1.2
  let c0 := readU8 n2.2
  let c1 := readU8 c0.2
  let c2 := readU8 c1.2
  let op := readF32 c2.2
  let sc0 := readF32 op.2
  let sc1 := readF32 sc0.2
  let sc2 := readF32 sc1.2
  let q0 := readF32 sc2.2
  let q1 := readF32 q0.2
  let q2 := readF32 q1.2
  let q3 := readF32 q2.2
  (⟨p0.1, p1.1, p2.1, n0.1, n1.1, n2.1, c0.1, c1.1, c2.1, op.1,
    sc0.1, sc1.1, sc2.1, q0.1, q1.1, q2.1, q3.1⟩, q3.2)

/-- Parse `n` consecutive point records. -/
def readPoints : Nat → List Nat → List SplatPoint × List Nat
  | 0, bs => ([], bs)
  | n + 1, bs =>
    let pr := readPoint bs
    let rest := readPoints n pr.2
    (pr.1 :: rest.1, rest.2)

/-- Modelled from the spec: no deserializer exists under `src/` — the
repository only writes PLY artifacts. Spec §4.3 `Read(source)`: "parses the
header, validates the declared `count` against remaining byte length
(`count * recordSize == remainingBytes`), fails with `FormatError` on
mismatch or malformed header tokens; otherwise fully materializes all
per-point arrays", with the §6 layout (little-endian, 59-byte records). -/
def readCloud (bytes : List Nat) : Except String PointCloud :=
  match dropExact (asciiBytes headerPre) bytes with
  | none => .error "FormatError: malformed header"
  | some afterPre =>
    let cd := parseDigits afterPre 0
    match dropExact (10 :: asciiBytes headerSuf) cd.2 with
    | none => .error "FormatError: malformed header"
    | some body =>
      if body.length = cd.1 * 59 then .ok ⟨(readPoints cd.1 body).1⟩
      else .error "FormatError: count does not match remaining bytes"

/-! ### The submission API

Translated from `src/python/api/main.py`: the pydantic request model
(lines 20–24) and the `/generate`, `/status/{job_id}` and
`/cancel/{job_id}` endpoints. Floats appearing only in comparisons are
modelled as rationals (the bounds and the values of interest are exactly
representable, so every comparison agrees with IEEE-754). -/

/-- `GenerateRequest` (main.py lines 20–24). `prompt` and `model` are plain
`str` fields with no constraint; only the two numeric fields carry
`ge`/`le` bounds. -/
structure GenerateRequest where
  prompt : String
  model : String
  guidance_scale : ℚ
  num_inference_steps : Int
deriving DecidableEq

/-- The pydantic validation FastAPI runs before the endpoint body: exactly
the declared `Field` bounds — `guidance_scale ∈ [1.0, 30.0]`,
`num_inference_steps ∈ [16, 256]`. Nothing constrains `prompt` or `model`. -/
def validRequest (r : GenerateRequest) : Bool :=
  decide (1 ≤ r.guidance_scale) && decide (r.guidance_scale ≤ 30) &&
  decide (16 ≤ r.num_inference_steps) && decide (r.num_inference_steps ≤ 256)

/-- What `/generate` answers: the `JobResponse` on acceptance, or FastAPI's
422 validation error (`InvalidParams`) when pydantic rejects the body. -/
inductive SubmitOutcome
  | accepted (job_id : Nat) (status : String) (message : String)
  | invalidParams
deriving DecidableEq

/-- The result dict a finished job returns (worker.py lines 127–133). -/
structure ResultDict where
  output_path : String
  model : String
  prompt : String
  guidance_scale : ℚ
  num_inference_steps : Int
deriving DecidableEq

/-- Mutable per-task state in the Celery result backend. -/
structure TaskMeta where
  progress : ℚ
  message : String
deriving DecidableEq

/-- A task's record in the result backend once something was stored for it:
`STARTED` progress meta, a `SUCCESS` result, a `FAILURE` exception message,
a retry marker, or a revocation. -/
inductive TaskRecord
  | started (meta : TaskMeta)
  | success (result : ResultDict)
  | failure (excMessage : String)
  | retry
  | revoked
deriving DecidableEq

/-- A terminal record: `SUCCESS`, `FAILURE` or `REVOKED`. -/
def TaskRecord.isTerminal : TaskRecord → Bool
  | .success _ => true
  | .failure _ => true
  | .revoked => true
  | _ => false

/-- The Celery result backend: what is stored under each job id. `none`
means nothing was ever stored — an id never assigned, a job still queued,
or a record expired past `result_expires`. -/
abbrev Backend := Nat → Option TaskRecord

/-- The orchestrator state the API layer sees: the backend plus the list of
jobs created so far (ids are assigned in submission order). -/
structure ApiState where
  backend : Backend
  jobs : List Nat

/-- `/generate` (main.py lines 85–111): FastAPI first runs pydantic
validation on the body; a violating body is rejected with a 422 before the
endpoint body runs, so no task is sent. Otherwise `send_task` enqueues the
job and its id is returned with status `"submitted"`. -/
def submit (s : ApiState) (r : GenerateRequest) : ApiState × SubmitOutcome :=
  if validRequest r then
    let id := s.jobs.length
    ({ s with jobs := s.jobs ++ [id] },
      .accepted id "submitted" ("Job submitted for model '" ++ r.model ++ "'"))
  else (s, .invalidParams)

/-- The status response (main.py lines 33–39). -/
structure JobStatusResponse where
  job_id : Nat
  status : String
  progress : Option ℚ
  message : Option String
  result : Option ResultDict
  error : Option String
deriving DecidableEq

/-- `/status/{job_id}` (main.py lines 114–160). `AsyncResult(job_id).state`
is `PENDING` whenever the backend holds nothing under the id — Celery does
not distinguish an unknown or expired id from a queued job — and the
endpoint maps every state to a `JobStatusResponse`; no branch produces a
not-found error. On `SUCCESS` the endpoint hard-codes `progress = 1.0`. -/
def getStatus (b : Backend) (job_id : Nat) : JobStatusResponse :=
  match b job_id with
  | none => ⟨job_id, "PENDING", none, some "Job is queued", none, none⟩
  | some (.started m) => ⟨job_id, "STARTED", some m.progress, some m.message, none, none⟩
  | some (.success res) => ⟨job_id, "SUCCESS", some 1, some "Generation complete", some res, none⟩
  | some (.failure e) => ⟨job_id, "FAILURE", none, some "Job failed", none, some e⟩
  | some .retry => ⟨job_id, "RETRY", none, some "Job is being retried", none, none⟩
  | some .revoked => ⟨job_id, "REVOKED", none, none, none, none⟩

/-- What `/cancel/{job_id}` answers (main.py line 168). -/
structure CancelResponse where
  job_id : Nat
  status : String
deriving DecidableEq

/-- Modelled from the spec: the broker-side effect of
`celery_app.control.revoke` — external to `src/` — per spec §4.1 `Cancel`:
a running job is signalled to stop, cancellation of a job "already
terminal" is "a no-op (not an error)", and revoking an id the broker does
not know is silently accepted (the revoke is a broadcast; no lookup
happens and nothing is stored). -/
def revoke (b : Backend) (job_id : Nat) : Backend :=
  fun k =>
    if k = job_id then
      match b job_id with
      | some (.started _) => some .revoked
      | some .retry => some .revoked
      | other => other
    else b k

/-- `/cancel/{job_id}` (main.py lines 163–170): issues the revoke and
answers `{job_id, status: "cancelled"}` unconditionally — there is no
existence check and no not-found branch. -/
def cancelJob (b : Backend) (job_id : Nat) : Backend × CancelResponse :=
  (revoke b job_id, ⟨job_id, "cancelled"⟩)

/-! ### The worker

Translated from `src/python/worker/worker.py`: the module-level registry
built at startup (lines 26–37) and the `generate_3d` task (lines 42–137). -/

/-- How one model's `generate` call behaves when invoked (the model is an
opaque capability; its computation is not modelled). -/
inductive GenOutcome
  | ok (path : String)
  | raises (isValueError : Bool) (msg : String)
deriving DecidableEq

/-- A loaded capability held by the registry: `is_loaded` is set by
`load()`, and the generate behavior is the model's own. -/
structure Capability where
  name : String
  loaded : Bool
  gen : GenOutcome
deriving DecidableEq

/-- A model implementation before registration: whether its `load()` probe
succeeds (imports and weights are external), and how `generate` behaves. -/
structure ModelDef where
  name : String
  loadSucceeds : Bool
  gen : GenOutcome
deriving DecidableEq

/-- `Model3DBase.__init__` sets `is_loaded = False`; `load()` sets
`is_loaded = True` just before returning `True`, and returns `False` (with
`is_loaded` untouched) when anything raises (shap_e.py lines 22–54). -/
def runLoad (d : ModelDef) : Capability × Bool :=
  if d.loadSucceeds then ({ name := d.name, loaded := true, gen := d.gen }, true)
  else ({ name := d.name, loaded := false, gen := d.gen }, false)

/-- The registry: name-keyed capabilities (`MODELS` dict). -/
abbrev Registry := List (String × Capability)

/-- One registration at worker startup (worker.py lines 28–34): run the
`load()` probe; install the entry only when it returns `True`, otherwise
report the failure and leave the registry as it was. -/
def registerStep (reg : Registry) (d : ModelDef) : Registry :=
  let lc := runLoad d
  if lc.2 then (d.name, lc.1) :: reg else reg

/-- The registry built at process start from a list of model definitions. -/
def buildRegistry (ds : List ModelDef) : Registry :=
  ds.foldl registerStep []

/-- Dictionary lookup in the registry (most recent binding first, as a
`dict` whose assignments shadow earlier ones). -/
def regLookup : Registry → String → Option Capability
  | [], _ => none
  | (k, v) :: rest, nm => if nm = k then some v else regLookup rest nm

/-- The lookup `generate_3d` performs (worker.py lines 68–71): an absent
name raises `ValueError(f"Model '{model_name}' not available")`. -/
def resolve (reg : Registry) (name : String) : Except String Capability :=
  match regLookup reg name with
  | some c => .ok c
  | none => .error ("Model '" ++ name ++ "' not available")

/-- Whether `needle` occurs as a contiguous run inside `hay`. -/
def startsWithSeq : List Char → List Char → Bool
  | [], _ => true
  | _ :: _, [] => false
  | a :: as, b :: bs => a == b && startsWithSeq as bs

def containsSeq (needle : List Char) : List Char → Bool
  | [] => needle.isEmpty
  | c :: rest => startsWithSeq needle (c :: rest) || containsSeq needle rest

/-- Python's `needle in hay.lower()` for an already-lowercase needle. -/
def lowerContains (needle hay : String) : Bool :=
  containsSeq needle.toList (hay.toList.map Char.toLower)

/-- The rewritten error for flat/degenerate meshes (worker.py lines
116–121). -/
def flatMeshHelp : String :=
  "Generated mesh is flat/invalid. Try:\n  • More specific prompt (add details about shape/structure)\n  • Higher guidance scale (try 20-25)\n  • Different prompt entirely"

/-- The message of the exception that escapes `generate_3d` when the model
raises `(isValueError, msg)`: a `ValueError` whose lowercased message
contains "flat" or "degenerate" is replaced by the helpful text (worker.py
lines 112–122); everything else is re-raised unchanged (line 122 and the
outer handler, lines 135–137, which prints and re-raises). -/
def capturedMsg (isValueError : Bool) (msg : String) : String :=
  if isValueError && (lowerContains "flat" msg || lowerContains "degenerate" msg)
  then flatMeshHelp else msg

/-- `generate_3d`'s control flow (worker.py lines 57–137): resolve the
model or raise; run `generate`; on success return the result dict. The
error carries the message that escapes to the task boundary. -/
def runGenerate (reg : Registry) (t : GenerateRequest) : Except String ResultDict :=
  match resolve reg t.model with
  | .error m => .error m
  | .ok cap =>
    match cap.gen with
    | .ok path =>
      .ok ⟨path, t.model, t.prompt, t.guidance_scale, t.num_inference_steps⟩
    | .raises isVE msg => .error (capturedMsg isVE msg)

/-- Modelled from the spec: the Celery task boundary — external to `src/`
(`@celery_app.task`) — per spec §4.1: "any exception raised during
execution is caught at the job boundary, converted to state FAILURE with a
captured, human-readable `error`, and does not crash the worker process
for subsequent jobs"; a normal return is recorded as SUCCESS. The stored
error is the exception's message, which `/status` surfaces as
`str(result.info)`. -/
def taskBoundary : Except String ResultDict → TaskRecord
  | .ok res => .success res
  | .error msg => .failure msg

/-- Modelled from the spec: the worker main loop — Celery's, external to
`src/` — which takes tasks one at a time (`--concurrency=1`, solo pool) and
keeps serving after a task fails (spec §4.1 failure semantics). -/
def processQueue (reg : Registry) (q : List GenerateRequest) : List TaskRecord :=
  q.map (fun t => taskBoundary (runGenerate reg t))

/-- The sequence of task-state writes `generate_3d` performs, in program
order (worker.py lines 57–124): `STARTED` at progress 0.0 on entry, the
`progress_callback(0.1, 'Initializing model...')` checkpoint after the
registry lookup succeeds, and `progress_callback(1.0, 'Complete!')` after
`generate` returns. A raise ends the sequence (the boundary then appends
the terminal record). -/
def generateUpdates (reg : Registry) (t : GenerateRequest) : List TaskRecord :=
  .started ⟨0, "Starting " ++ t.model ++ " generation..."⟩ ::
    match resolve reg t.model with
    | .error _ => []
    | .ok cap =>
      .started ⟨1 / 10, "Initializing model..."⟩ ::
        match cap.gen with
        | .ok _ => [.started ⟨1, "Complete!"⟩]
        | .raises _ _ => []

/-- Every state the result backend holds for one job over its lifetime, in
order: the in-flight updates then the terminal record the boundary stores. -/
def taskTrace (reg : Registry) (t : GenerateRequest) : List TaskRecord :=
  generateUpdates reg t ++ [taskBoundary (runGenerate reg t)]

/-- The progress a `STARTED` record carries (what `/status` reports while
the job runs). -/
def startedProgress : TaskRecord → Option ℚ
  | .started m => some m.progress
  | _ => none

/-! ### Concrete inputs used by witnesses and counterexamples -/

/-- A valid point whose normal has a nonzero x component: `nx` holds the
bit pattern of 1.0f (1065353216 = 0x3F800000). The other fields are
plausible splat values: position at the origin, pure red, opacity 0.95f
(1064514355), scale 0.05f (1028443341) per axis, identity rotation with
`rot_0` = 1.0f. -/
def samplePoint : SplatPoint :=
  ⟨0, 0, 0, 1065353216, 0, 0, 255, 0, 0, 1064514355,
    1028443341, 1028443341, 1028443341, 1065353216, 0, 0, 0⟩

def sampleCloud : PointCloud := ⟨[samplePoint]⟩

def emptyCloud : PointCloud := ⟨[]⟩

/-- The fresh orchestrator: empty backend, no job created yet. -/
def apiState0 : ApiState := ⟨fun _ => none, []⟩

/-- A request violating the constraints pydantic does not declare: empty
prompt and a model name no registry knows — but in-bounds numerics. -/
def reqNoPrompt : GenerateRequest := ⟨"", "not_a_registered_model", 15, 64⟩

/-- The spec's concrete rejected submission: `guidance_scale = 0.5`. -/
def reqHalfGuidance : GenerateRequest := ⟨"a red sports car", "shap_e", 1 / 2, 64⟩

/-- A backend holding nothing (no id ever assigned, or all expired). -/
def noBackend : Backend := fun _ => none

def sampleResult : ResultDict := ⟨"/outputs/out.ply", "shap_e", "a red sports car", 15, 64⟩

/-- A backend whose job 5 already finished with SUCCESS (terminal). -/
def doneBackend : Backend := fun k => if k = 5 then some (.success sampleResult) else none

/-- A registry with a model whose `generate` raises and one that succeeds. -/
def mixedRegistry : Registry :=
  buildRegistry
    [⟨"shap_e", true, .raises true "CUDA error: out of memory"⟩,
     ⟨"other_model", true, .ok "/outputs/other.ply"⟩]

def failingCap : Capability := ⟨"shap_e", true, .raises true "CUDA error: out of memory"⟩

def okCap : Capability := ⟨"other_model", true, .ok "/outputs/other.ply"⟩

def taskFail : GenerateRequest := ⟨"a red sports car", "shap_e", 15, 64⟩

def taskOk : GenerateRequest := ⟨"a blue cat", "other_model", 20, 32⟩

def emptyRegistry : Registry := []

/-- Model definitions for registry claims: one loads, one fails its probe. -/
def defsLoadMix : List ModelDef :=
  [⟨"shap_e", true, .ok "/outputs/out.ply"⟩, ⟨"broken_model", false, .ok "/outputs/b.ply"⟩]

def brokenDef : ModelDef := ⟨"broken_model", false, .ok "/outputs/b.ply"⟩

def loadedCap : Capability := ⟨"shap_e", true, .ok "/outputs/out.ply"⟩

/-! ### Lemmas about the serializer -/

theorem readF32_f32Bytes (n : Nat) (rest : List Nat) :
    readF32 (f32Bytes n ++ rest) = (n % 4294967296, rest) := by
  simp only [f32Bytes, List.cons_append, List.nil_append, readF32, Prod.mk.injEq,
    and_true]
  omega

theorem recordBytes_length (p : SplatPoint) : (recordBytes p).length = 59 := by
  simp [recordBytes, f32Bytes]

theorem flattenRecords_length (ps : List SplatPoint) :
    ((ps.map recordBytes).flatten).length = ps.length * 59 := by
  induction ps with
  | nil => simp
  | cons p ps ih => simp [ih, recordBytes_length, Nat.succ_mul, Nat.add_comm]

theorem serializeCloud_length (c : PointCloud) :
    (serializeCloud c).length = (headerBytes c.count).length + c.count * 59 := by
  unfold serializeCloud
  rw [List.length_append, flattenRecords_length]
  rfl

theorem truncPoint_of_valid (p : SplatPoint) (h : ValidPoint p) :
    truncPoint p = writtenPoint p := by
  obtain ⟨h1, h2, h3, h4, h5, h6, h7, h8, h9, h10, h11, h12, h13, h14, h15, h16, h17⟩ := h
  cases p
  simp_all [truncPoint, writtenPoint, Nat.mod_eq_of_lt]

theorem readPoint_recordBytes (p : SplatPoint) (t : List Nat) :
    readPoint (recordBytes p ++ t) = (truncPoint p, t) := by
  simp [readPoint, recordBytes, List.append_assoc, readF32_f32Bytes, readU8, truncPoint]

theorem readPoints_flattenRecords (ps : List SplatPoint) (t : List Nat) :
    readPoints ps.length ((ps.map recordBytes).flatten ++ t) = (ps.map truncPoint, t) := by
  induction ps with
  | nil => simp [readPoints]
  | cons p ps ih =>
    simp [readPoints, List.append_assoc, readPoint_recordBytes, ih]

theorem dropExact_append (es t : List Nat) : dropExact es (es ++ t) = some t := by
  induction es with
  | nil => rfl
  | cons e es ih => simp [dropExact, ih]

theorem parseDigits_digit (d acc : Nat) (hd : d < 10) (rest : List Nat) :
    parseDigits ((d + 48) :: rest) acc = parseDigits rest (acc * 10 + d) := by
  have hc : 48 ≤ d + 48 ∧ d + 48 ≤ 57 := by omega
  have hd48 : d + 48 - 48 = d := by omega
  simp [parseDigits, hc, hd48]

theorem parseDigits_stop (b acc : Nat) (hb : ¬(48 ≤ b ∧ b ≤ 57)) (rest : List Nat) :
    parseDigits (b :: rest) acc = (acc, b :: rest) := by
  simp [parseDigits, hb]

theorem parseDigits_decDigitsCore (fuel : Nat) :
    ∀ n acc rest, n < fuel →
      parseDigits ((decDigitsCore fuel n).map (fun d => d + 48) ++ rest) acc
        = parseDigits rest (acc * 10 ^ (decDigitsCore fuel n).length + n) := by
  induction fuel with
  | zero => intro n _ _ h; omega
  | succ fuel ih =>
    intro n acc rest h
    by_cases h10 : n < 10
    · simp only [decDigitsCore, if_pos h10, List.map_cons, List.map_nil,
        List.cons_append, List.nil_append, List.length_cons, List.length_nil]
      rw [parseDigits_digit n acc h10 rest]
      norm_num
    · have hdiv : n / 10 < fuel := by omega
      simp only [decDigitsCore, if_neg h10, List.map_append, List.map_cons,
        List.map_nil, List.append_assoc, List.cons_append, List.nil_append,
        List.length_append, List.length_cons, List.length_nil]
      rw [ih (n / 10) acc ((n % 10 + 48) :: rest) hdiv]
      rw [parseDigits_digit (n % 10) _ (Nat.mod_lt n (by omega)) rest]
      have hacc : (acc * 10 ^ (decDigitsCore fuel (n / 10)).length + n / 10) * 10 + n % 10
          = acc * 10 ^ ((decDigitsCore fuel (n / 10)).length + (0 + 1)) + n := by
        calc (acc * 10 ^ (decDigitsCore fuel (n / 10)).length + n / 10) * 10 + n % 10
            = acc * 10 ^ (decDigitsCore fuel (n / 10)).length * 10
              + (n / 10 * 10 + n % 10) := by ring
          _ = acc * 10 ^ (decDigitsCore fuel (n / 10)).length * 10 + n := by
              rw [Nat.div_add_mod']
          _ = acc * 10 ^ ((decDigitsCore fuel (n / 10)).length + (0 + 1)) + n := by
              rw [pow_succ]; ring
      rw [hacc]

theorem parseDigits_decimalBytes (n : Nat) (t : List Nat) :
    parseDigits (decimalBytes n ++ 10 :: t) 0 = (n, 10 :: t) := by
  unfold decimalBytes
  rw [parseDigits_decDigitsCore (n + 1) n 0 (10 :: t) (Nat.lt_succ_self n)]
  rw [parseDigits_stop 10 _ (by omega) t]
  simp

/-- Deserializing a written artifact recovers the cloud with every 32-bit
field truncated and every normal zeroed — with no validity assumption. -/
theorem readCloud_serialize_eq (c : PointCloud) :
    readCloud (serializeCloud c) = Except.ok ⟨c.points.map truncPoint⟩ := by
  have hser : serializeCloud c
      = asciiBytes headerPre ++ (decimalBytes c.count
        ++ 10 :: (asciiBytes headerSuf ++ (c.points.map recordBytes).flatten)) := by
    simp [serializeCloud, headerBytes, List.append_assoc]
  unfold readCloud
  rw [hser, dropExact_append]
  have hsuf : (10 : Nat) :: (asciiBytes headerSuf ++ (c.points.map recordBytes).flatten)
      = (10 :: asciiBytes headerSuf) ++ (c.points.map recordBytes).flatten := by
    simp
  have hr := readPoints_flattenRecords c.points []
  rw [List.append_nil] at hr
  simp only [parseDigits_decimalBytes]
  simp only [hsuf, dropExact_append, flattenRecords_length, PointCloud.count, hr, ite_true]

/-- A nonempty cloud passes both of `_export_to_ply`'s guards: the vertex
check and the size re-check. -/
theorem shapE_export_ok (c : PointCloud) (h : c.count ≠ 0) :
    shapE_export c = Except.ok (serializeCloud c) := by
  unfold shapE_export
  rw [if_neg h, if_pos (serializeCloud_length c)]

/-! ### Claim C1 — round-trip of the serializer -/

/-- Claim C1 fails as stated: a valid cloud whose point has normal
`(1.0, 0.0, 0.0)` does not survive the round trip, because the writer
discards input normals (shap_e.py line 221). -/
theorem c1_counterexample :
    ValidCloud sampleCloud ∧
      readCloud (serializeCloud sampleCloud) ≠ Except.ok sampleCloud := by
  refine ⟨by decide, ?_⟩
  rw [readCloud_serialize_eq]
  simp only [ne_eq, Except.ok.injEq]
  decide

/-- Claim C1 (amended): for every valid PointCloud `p`, deserializing the
serialized bytes returns `p` with its three normal components replaced by
0.0; every other field — positions, colors, opacity, scales, rotation —
comes back byte-exact (floats as IEEE-754 single-precision bit patterns,
colors as directly copied uint8). -/
theorem c1_roundtrip (c : PointCloud) (h : ValidCloud c) :
    readCloud (serializeCloud c) = Except.ok (zeroNormals c) := by
  rw [readCloud_serialize_eq]
  unfold zeroNormals
  exact congrArg (fun l : List SplatPoint => (Except.ok ⟨l⟩ : Except String PointCloud))
    (List.map_congr_left (fun p hp => truncPoint_of_valid p (h p hp)))

/-- Witness for C1: the round trip evaluated on the concrete valid cloud. -/
theorem c1_roundtrip_witness :
    ValidCloud sampleCloud ∧
      readCloud (serializeCloud sampleCloud) = Except.ok (zeroNormals sampleCloud) :=
  ⟨by decide, c1_roundtrip sampleCloud (by decide)⟩

/-! ### Claim C2 — exact artifact layout and size -/

/-- Claim C2: whenever the serializer succeeds, the output is the ASCII
header followed by exactly `count` 59-byte records in the declared order
(position, normal, color, opacity, scale, rotation), and the total size is
the header byte length plus `count * 59`. -/
theorem c2_layout (c : PointCloud) (bytes : List Nat)
    (h : shapE_export c = Except.ok bytes) :
    bytes = headerBytes c.count ++ (c.points.map recordBytes).flatten ∧
      bytes.length = (headerBytes c.count).length + c.count * 59 ∧
      ∀ p ∈ c.points, (recordBytes p).length = 59 := by
  unfold shapE_export at h
  by_cases h0 : c.count = 0
  · simp [h0] at h
  · rw [if_neg h0, if_pos (serializeCloud_length c)] at h
    cases h
    exact ⟨rfl, serializeCloud_length c, fun p _ => recordBytes_length p⟩

/-- Witness for C2: the layout equation evaluated on the concrete cloud. -/
theorem c2_layout_witness :
    (serializeCloud sampleCloud).length
      = (headerBytes sampleCloud.count).length + sampleCloud.count * 59 :=
  (c2_layout sampleCloud (serializeCloud sampleCloud)
    (shapE_export_ok sampleCloud (by decide))).2.1

/-! ### Claim C7 — the empty cloud -/

/-- Claim C7 fails as stated: `_export_to_ply` does not succeed on an empty
cloud — it raises `ValueError("Mesh has no vertices!")` (shap_e.py lines
131–132) instead of writing a header-only file. -/
theorem c7_counterexample :
    shapE_export emptyCloud = Except.error "Mesh has no vertices!" := rfl

/-- Claim C7 (amended): the ShapE exporter rejects a cloud with
`count = 0` with `ValueError("Mesh has no vertices!")`; the GaussianDreamer
exporter, which has no such guard, produces exactly the header bytes for
`count = 0` — header-only output of the computed header length with zero
point records. -/
theorem c7_empty_cloud :
    shapE_export emptyCloud = Except.error "Mesh has no vertices!" ∧
      gaussianDreamer_export emptyCloud = headerBytes 0 ∧
      (gaussianDreamer_export emptyCloud).length = (headerBytes 0).length + 0 * 59 := by
  refine ⟨rfl, ?_, ?_⟩
  · show serializeCloud emptyCloud = headerBytes 0
    unfold serializeCloud
    rw [show (emptyCloud.points.map recordBytes).flatten = [] from rfl, List.append_nil]
    exact congrArg headerBytes rfl
  · show (serializeCloud emptyCloud).length = (headerBytes 0).length + 0 * 59
    rw [serializeCloud_length]
    exact congrArg (fun n => (headerBytes n).length + n * 59) rfl

/-! ### Claim C10 — normals are never preserved -/

/-- Claim C10: every written point record carries `(0.0, 0.0, 0.0)` as its
normal — bytes 12–23 of the 59-byte record are all zero (the little-endian
encoding of three 0.0f values) — and the record is entirely independent of
the normal stored in the input point. -/
theorem c10_normals_zeroed (p : SplatPoint) (a b c : Nat) :
    ((recordBytes p).drop 12).take 12 = List.replicate 12 0 ∧
      recordBytes { p with nx := a, ny := b, nz := c } = recordBytes p := by
  constructor
  · simp [recordBytes, f32Bytes]
  · rfl

/-! ### Claim C3 — submission validation -/

/-- Claim C3 fails as stated: a request with an empty prompt and a model
name no registry knows is accepted — pydantic constrains only the two
numeric fields (main.py lines 20–24), so the job is created and enqueued
rather than rejected with `InvalidParams`. -/
theorem c3_counterexample :
    reqNoPrompt.prompt = "" ∧
      (submit apiState0 reqNoPrompt).2
        = SubmitOutcome.accepted 0 "submitted"
            "Job submitted for model 'not_a_registered_model'" ∧
      (submit apiState0 reqNoPrompt).1.jobs = [0] := by
  refine ⟨rfl, ?_, ?_⟩ <;> decide

/-- Claim C3 (amended): Submit validates exactly the declared numeric
bounds — `guidance_scale ∈ [1.0, 30.0]` and `num_inference_steps ∈
[16, 256]` — and any request violating them fails with `InvalidParams`
before any job is created or enqueued (the state is unchanged); in
particular `guidance_scale = 0.5` is rejected with no job afterwards.
Prompt non-emptiness and registry membership of the model name are not
checked at submission. -/
theorem c3_numeric_validation (s : ApiState) (r : GenerateRequest)
    (h : ¬(1 ≤ r.guidance_scale ∧ r.guidance_scale ≤ 30 ∧
          16 ≤ r.num_inference_steps ∧ r.num_inference_steps ≤ 256)) :
    (submit s r).2 = SubmitOutcome.invalidParams ∧
      (submit s r).1 = s ∧ (submit s r).1.jobs = s.jobs := by
  have hv : validRequest r = false := by
    cases hb : validRequest r
    · rfl
    · exfalso
      apply h
      have := hb
      unfold validRequest at this
      simp only [Bool.and_eq_true, decide_eq_true_eq] at this
      exact ⟨this.1.1.1, this.1.1.2, this.1.2, this.2⟩
  unfold submit
  rw [hv]
  exact ⟨rfl, rfl, rfl⟩

/-- Witness for C3: the spec's concrete rejected submission,
`guidance_scale = 0.5`: `InvalidParams`, and no job exists afterwards. -/
theorem c3_numeric_validation_witness :
    (submit apiState0 reqHalfGuidance).2 = SubmitOutcome.invalidParams ∧
      (submit apiState0 reqHalfGuidance).1 = apiState0 ∧
      (submit apiState0 reqHalfGuidance).1.jobs = apiState0.jobs :=
  c3_numeric_validation apiState0 reqHalfGuidance
    (fun h => absurd h.1 (by norm_num [reqHalfGuidance]))

/-! ### Claim C4 — status of an unknown id -/

/-- Claim C4 fails as stated: a status query on an id that was never
assigned returns a `PENDING` snapshot ("Job is queued"), not a not-found
error — `AsyncResult.state` is `PENDING` for any id the backend does not
know, and `get_status` (main.py lines 114–160) has no not-found branch. -/
theorem c4_counterexample :
    getStatus noBackend 42
      = ⟨42, "PENDING", none, some "Job is queued", none, none⟩ := rfl

/-- Claim C4 (amended): for every job id never assigned by a submission,
or whose record has expired past the retention window (so the backend
holds nothing for it), GetStatus returns a `PENDING` snapshot with message
"Job is queued"; it never fails with a not-found error. -/
theorem c4_unknown_id_pending (b : Backend) (job_id : Nat) (h : b job_id = none) :
    getStatus b job_id
      = ⟨job_id, "PENDING", none, some "Job is queued", none, none⟩ := by
  unfold getStatus
  rw [h]

/-- Witness for C4: the unknown-id snapshot on the empty backend. -/
theorem c4_unknown_id_pending_witness :
    getStatus noBackend 7 = ⟨7, "PENDING", none, some "Job is queued", none, none⟩ :=
  c4_unknown_id_pending noBackend 7 rfl

/-! ### Claim C6 — cancel semantics -/

/-- Claim C6 fails as stated: cancelling an unknown job id does not fail
with a not-found error — `cancel_job` (main.py lines 163–170) issues the
revoke and answers `{job_id, status: "cancelled"}` unconditionally. -/
theorem c6_counterexample :
    (cancelJob noBackend 99).2 = ⟨99, "cancelled"⟩ := rfl

/-- Claim C6 (amended): Cancel answers `{job_id, status: "cancelled"}` for
every id — including ids that were never assigned (it never fails with
`NotFound`) — and on a job already in a terminal state (SUCCESS, FAILURE
or REVOKED) it is a no-op, not an error: the backend is unchanged. -/
theorem c6_cancel (b : Backend) (job_id : Nat) :
    (cancelJob b job_id).2 = ⟨job_id, "cancelled"⟩ ∧
      (∀ rec, b job_id = some rec → rec.isTerminal = true →
        ∀ k, (cancelJob b job_id).1 k = b k) := by
  refine ⟨rfl, fun rec h ht k => ?_⟩
  unfold cancelJob revoke
  by_cases hk : k = job_id
  · subst hk
    rw [h]
    cases rec <;> simp_all [TaskRecord.isTerminal]
  · simp [hk]

/-- Witness for C6: cancelling the finished job 5 acknowledges and leaves
its terminal record untouched. -/
theorem c6_cancel_witness :
    (cancelJob doneBackend 5).2 = ⟨5, "cancelled"⟩ ∧
      (cancelJob doneBackend 5).1 5 = doneBackend 5 :=
  ⟨(c6_cancel doneBackend 5).1,
    (c6_cancel doneBackend 5).2 (.success sampleResult) rfl rfl 5⟩

/-! ### Claim C5 — failure isolation -/

/-- Claim C5: when a job's model raises mid-execution (with any exception
whose message is non-empty, which every exception raised by the
repository's own code is), the job terminates in FAILURE with a non-empty
captured error string, and the worker survives: it processes every queued
task, and a subsequent, unrelated task whose model succeeds completes with
SUCCESS. -/
theorem c5_failure_isolation (reg : Registry) (pre post : List GenerateRequest)
    (tf ts : GenerateRequest) (capf caps : Capability)
    (isVE : Bool) (msg path : String)
    (hrf : resolve reg tf.model = Except.ok capf)
    (hgf : capf.gen = GenOutcome.raises isVE msg)
    (hmsg : msg ≠ "")
    (hrs : resolve reg ts.model = Except.ok caps)
    (hgs : caps.gen = GenOutcome.ok path) :
    capturedMsg isVE msg ≠ "" ∧
      processQueue reg (pre ++ tf :: ts :: post)
        = processQueue reg pre
            ++ TaskRecord.failure (capturedMsg isVE msg)
              :: TaskRecord.success
                  ⟨path, ts.model, ts.prompt, ts.guidance_scale, ts.num_inference_steps⟩
              :: processQueue reg post := by
  constructor
  · unfold capturedMsg
    split
    · decide
    · exact hmsg
  · unfold processQueue
    rw [List.map_append, List.map_cons, List.map_cons]
    rw [show runGenerate reg tf = Except.error (capturedMsg isVE msg) by
      unfold runGenerate; rw [hrf]; simp only [hgf]]
    rw [show runGenerate reg ts
        = Except.ok ⟨path, ts.model, ts.prompt, ts.guidance_scale, ts.num_inference_steps⟩ by
      unfold runGenerate; rw [hrs]; simp only [hgs]]
    rfl

/-- Witness for C5: the fixed registry whose `shap_e` raises a CUDA error;
the failing task ends FAILURE with that message, the next task succeeds. -/
theorem c5_failure_isolation_witness :
    capturedMsg true "CUDA error: out of memory" ≠ "" ∧
      processQueue mixedRegistry ([] ++ taskFail :: taskOk :: [])
        = processQueue mixedRegistry []
            ++ TaskRecord.failure (capturedMsg true "CUDA error: out of memory")
              :: TaskRecord.success
                  ⟨"/outputs/other.ply", taskOk.model, taskOk.prompt,
                    taskOk.guidance_scale, taskOk.num_inference_steps⟩
              :: processQueue mixedRegistry [] :=
  c5_failure_isolation mixedRegistry [] [] taskFail taskOk failingCap okCap
    true "CUDA error: out of memory" "/outputs/other.ply"
    rfl rfl (by decide) rfl rfl

/-! ### Claim C8 — progress invariants -/

/-- Claim C8: over any job's lifetime the progress values carried by its
STARTED states all lie in [0.0, 1.0] and are monotonically non-decreasing
in write order (hence across successive status reads), and a status query
on a SUCCESS record reports progress exactly 1.0. -/
theorem c8_progress_monotone (reg : Registry) (t : GenerateRequest) :
    (∀ p ∈ (taskTrace reg t).filterMap startedProgress, 0 ≤ p ∧ p ≤ 1) ∧
      ((taskTrace reg t).filterMap startedProgress).Pairwise (· ≤ ·) ∧
      (∀ (b : Backend) (job_id : Nat) (res : ResultDict),
        b job_id = some (.success res) → (getStatus b job_id).progress = some 1) := by
  refine ⟨?_, ?_, fun b job_id res h => by unfold getStatus; rw [h]⟩
  · intro p hp
    rcases hres : resolve reg t.model with m | cap
    · simp [taskTrace, generateUpdates, runGenerate, taskBoundary, hres,
        startedProgress] at hp
      subst hp
      norm_num
    · cases hgen : cap.gen with
      | ok path =>
        simp [taskTrace, generateUpdates, runGenerate, taskBoundary, hres, hgen,
          startedProgress] at hp
        rcases hp with h | h | h <;> subst h <;> norm_num
      | raises isVE msg =>
        simp [taskTrace, generateUpdates, runGenerate, taskBoundary, hres, hgen,
          startedProgress] at hp
        rcases hp with h | h <;> subst h <;> norm_num
  · rcases hres : resolve reg t.model with m | cap
    · simp [taskTrace, generateUpdates, runGenerate, taskBoundary, hres, startedProgress]
    · cases hgen : cap.gen with
      | ok path =>
        simp [taskTrace, generateUpdates, runGenerate, taskBoundary, hres, hgen,
          startedProgress]
        norm_num
      | raises isVE msg =>
        simp [taskTrace, generateUpdates, runGenerate, taskBoundary, hres, hgen,
          startedProgress]

/-- Witness for C8: the bounds, the monotone chain and the SUCCESS
progress, evaluated on the concrete registry and task. -/
theorem c8_progress_monotone_witness :
    ((1 : ℚ) / 10 ∈ (taskTrace mixedRegistry taskOk).filterMap startedProgress →
      0 ≤ (1 : ℚ) / 10 ∧ (1 : ℚ) / 10 ≤ 1) ∧
      ((taskTrace mixedRegistry taskOk).filterMap startedProgress).Pairwise (· ≤ ·) ∧
      (getStatus doneBackend 5).progress = some 1 :=
  ⟨(c8_progress_monotone mixedRegistry taskOk).1 ((1 : ℚ) / 10),
    (c8_progress_monotone mixedRegistry taskOk).2.1,
    (c8_progress_monotone mixedRegistry taskOk).2.2 doneBackend 5 sampleResult rfl⟩

/-! ### Claim C9 — the registry never holds an unloaded capability -/

/-- Helper invariant: folding registrations over a registry whose entries
are all loaded yields a registry whose entries are all loaded. -/
theorem buildRegistry_loaded_inv (ds : List ModelDef) :
    ∀ (reg : Registry),
      (∀ nm cap, regLookup reg nm = some cap → cap.loaded = true) →
      ∀ nm cap, regLookup (ds.foldl registerStep reg) nm = some cap →
        cap.loaded = true := by
  induction ds with
  | nil => intro reg hreg nm cap h; exact hreg nm cap h
  | cons d ds ih =>
    intro reg hreg nm cap h
    refine ih (registerStep reg d) ?_ nm cap h
    intro nm' cap' h'
    cases hl : d.loadSucceeds with
    | false =>
      simp [registerStep, runLoad, hl] at h'
      exact hreg nm' cap' h'
    | true =>
      have hstep : registerStep reg d
          = (d.name, ⟨d.name, true, d.gen⟩) :: reg := by
        simp [registerStep, runLoad, hl]
      rw [hstep] at h'
      simp only [regLookup] at h'
      by_cases hn : nm' = d.name
      · rw [if_pos hn] at h'
        cases h'
        rfl
      · rw [if_neg hn] at h'
        exact hreg nm' cap' h'

/-- Claim C9: the registry built at worker startup never contains a
capability whose `loaded` flag is false; `Resolve` therefore never returns
one; a model whose `load()` probe returns false is not installed (the
registry keeps its prior state); and resolving an absent name fails with
the unknown-model error. -/
theorem c9_registry_loaded (ds : List ModelDef) (nm : String) (cap : Capability)
    (reg : Registry) (d : ModelDef) :
    (regLookup (buildRegistry ds) nm = some cap → cap.loaded = true) ∧
      (resolve (buildRegistry ds) nm = Except.ok cap → cap.loaded = true) ∧
      (d.loadSucceeds = false → registerStep reg d = reg) ∧
      (regLookup (buildRegistry ds) nm = none →
        resolve (buildRegistry ds) nm
          = Except.error ("Model '" ++ nm ++ "' not available")) := by
  have hinv : ∀ cap', regLookup (buildRegistry ds) nm = some cap' → cap'.loaded = true :=
    fun cap' h => buildRegistry_loaded_inv ds [] (by intro _ _ h'; cases h') nm cap' h
  refine ⟨hinv cap, ?_, ?_, ?_⟩
  · intro h
    unfold resolve at h
    cases hl : regLookup (buildRegistry ds) nm with
    | none => rw [hl] at h; cases h
    | some c =>
      rw [hl] at h
      cases h
      exact hinv _ hl
  · intro h
    unfold registerStep runLoad
    simp [h]
  · intro h
    unfold resolve
    rw [h]

/-- Witness for C9: on the mixed definitions, `shap_e` resolves to a
loaded capability, the failed probe leaves the registry unchanged, and an
absent name yields the unknown-model error. -/
theorem c9_registry_loaded_witness :
    loadedCap.loaded = true ∧
      registerStep emptyRegistry brokenDef = emptyRegistry ∧
      resolve (buildRegistry defsLoadMix) "nonexistent"
        = Except.error ("Model '" ++ "nonexistent" ++ "' not available") :=
  ⟨(c9_registry_loaded defsLoadMix "shap_e" loadedCap emptyRegistry brokenDef).2.1
      rfl,
    (c9_registry_loaded defsLoadMix "shap_e" loadedCap emptyRegistry brokenDef).2.2.1 rfl,
    (c9_registry_loaded defsLoadMix "nonexistent" loadedCap emptyRegistry brokenDef).2.2.2
      rfl⟩

end Genjutsu
